import Mathlib

/-!
Verification development for the prompt / auth / retry core of the
sample-openrouter-backend repository.

The definitions below are a shallow embedding of the Python source:

* `app/prompts.py`   — the prompt-template registry (`PromptManager`),
* `app/services.py`  — prompt resolution for direct text (`LLMService`),
* `app/api.py`       — the `/ask-llm` request validation,
* `app/auth.py`      — JWT issuance / verification and the auth resolver,
* `app/openrouter_client.py` — the retrying HTTP executor.

Machine-level details that the claims do not touch (logging, HTTP headers,
JSON (de)serialisation of response bodies, float seconds) are abstracted and
noted at each definition.
-/

/- ===================== Python str.format model ===================== -/

/-- ASCII model of the regex character class backslash-w used by the
template-variable pattern in `app/prompts.py` (`[a-zA-Z0-9_]`). -/
def isWordChar (c : Char) : Bool :=
  c.isAlphanum || c = '_'

/-- A variable mapping: a Python dict with unique string keys.  Values are
modelled as strings (the code only ever interpolates their string form). -/
abbrev VarMap := List (String × String)

/-- Python dict lookup `data[k]`. -/
def lookupVar (data : VarMap) (k : String) : Option String :=
  match data with
  | [] => none
  | (k₁, v) :: rest => if k₁ = k then some v else lookupVar rest k

/-- The exceptions `str.format` can raise on the inputs this code base feeds
it: `KeyError` for a named field absent from the keyword arguments,
`ValueError` for malformed brace syntax, `IndexError` for positional
(auto-numbered or digit-named) fields, since `.format(**data)` passes no
positional arguments. -/
inductive FmtError where
  | keyError (name : String)
  | valueError
  | indexError
  deriving DecidableEq

/-- Scanner state for the `str.format` model: in literal text, just after a
single opening brace, just after a single closing brace, or inside a
replacement field with the (reversed) characters read so far. -/
inductive FmtMode where
  | lit
  | lbrace
  | rbrace
  | field (acc : List Char)

/-- Model of CPython `template.format(**data)` restricted to plain named
replacement fields: the whole text between an opening and a closing brace is
the lookup key.  This coincides with CPython exactly whenever no field
contains `.`, `[`, `!` or `:` — which covers every simple placeholder name
and every field occurring in this repository, including the built-in
templates' conditional-expression fields — and the theorems below that
quantify over arbitrary text carry a simple-name guard on the fields so
their statements stay inside this exact subset (conversion, format-spec and
attribute/index syntax is not interpreted by the model).  Doubled braces are
the usual escapes; a lone closing brace or an opening brace inside a field
is a `ValueError`; an empty or all-digit field is positional and raises
`IndexError`, since `.format(**data)` passes no positional arguments; a
named field absent from `data` raises `KeyError` with the field text. -/
def goFmt (data : VarMap) : List Char → FmtMode → Except FmtError (List Char)
  | [], .lit => .ok []
  | [], .lbrace => .error .valueError
  | [], .rbrace => .error .valueError
  | [], .field _ => .error .valueError
  | c :: rest, .lit =>
      if c = '\x7b' then goFmt data rest .lbrace
      else if c = '\x7d' then goFmt data rest .rbrace
      else (goFmt data rest .lit).map (c :: ·)
  | c :: rest, .lbrace =>
      if c = '\x7b' then (goFmt data rest .lit).map ('\x7b' :: ·)
      else if c = '\x7d' then .error .indexError
      else goFmt data rest (.field [c])
  | c :: rest, .rbrace =>
      if c = '\x7d' then (goFmt data rest .lit).map ('\x7d' :: ·)
      else .error .valueError
  | c :: rest, .field acc =>
      if c = '\x7d' then
        if (acc.reverse).all Char.isDigit then .error .indexError
        else
          match lookupVar data (String.mk acc.reverse) with
          | none => .error (.keyError (String.mk acc.reverse))
          | some v => (goFmt data rest .lit).map (v.data ++ ·)
      else if c = '\x7b' then .error .valueError
      else goFmt data rest (.field (c :: acc))

/-- `template.format(**data)` on whole strings. -/
def pyFormat (template : String) (data : VarMap) : Except FmtError String :=
  (goFmt data template.data .lit).map (fun cs => String.mk cs)

/-- The replacement-field names `goFmt` looks up, in scan order, stopping at
brace-syntax errors (it keeps scanning past positional fields, which is a
harmless over-approximation: `goFmt` fails there anyway). -/
def refsAux : List Char → FmtMode → List String
  | [], _ => []
  | c :: rest, .lit =>
      if c = '\x7b' then refsAux rest .lbrace
      else if c = '\x7d' then refsAux rest .rbrace
      else refsAux rest .lit
  | c :: rest, .lbrace =>
      if c = '\x7b' then refsAux rest .lit
      else if c = '\x7d' then []
      else refsAux rest (.field [c])
  | c :: rest, .rbrace =>
      if c = '\x7d' then refsAux rest .lit
      else []
  | c :: rest, .field acc =>
      if c = '\x7d' then String.mk acc.reverse :: refsAux rest .lit
      else if c = '\x7b' then []
      else refsAux rest (.field (c :: acc))

/-- The replacement fields of a brace-well-formed text, or `none` when
formatting would hit a brace `ValueError`. -/
def collectAux : List Char → FmtMode → Option (List String)
  | [], .lit => some []
  | [], .lbrace => none
  | [], .rbrace => none
  | [], .field _ => none
  | c :: rest, .lit =>
      if c = '\x7b' then collectAux rest .lbrace
      else if c = '\x7d' then collectAux rest .rbrace
      else collectAux rest .lit
  | c :: rest, .lbrace =>
      if c = '\x7b' then collectAux rest .lit
      else if c = '\x7d' then (collectAux rest .lit).map ("" :: ·)
      else collectAux rest (.field [c])
  | c :: rest, .rbrace =>
      if c = '\x7d' then collectAux rest .lit
      else none
  | c :: rest, .field acc =>
      if c = '\x7d' then (collectAux rest .lit).map (String.mk acc.reverse :: ·)
      else if c = '\x7b' then none
      else collectAux rest (.field (c :: acc))

/-- A field text that `str.format` treats as a plain keyword name: nonempty,
word characters only, and not all digits (all-digit fields are positional). -/
def isSimpleName (f : String) : Bool :=
  decide (f.data ≠ []) && f.data.all isWordChar && !(f.data.all Char.isDigit)

/- ===================== regex variable extraction ===================== -/

/-- `re.findall` of the pattern used throughout `app/prompts.py`
(an opening brace, one or more word characters, a closing brace), scanning
left to right and continuing after each match.  The second argument is
`none` while scanning and `some acc` inside a candidate match whose word
characters so far are `acc` (reversed). -/
def findVarsAux : List Char → Option (List Char) → List String
  | [], _ => []
  | c :: rest, none =>
      if c = '\x7b' then findVarsAux rest (some [])
      else findVarsAux rest none
  | c :: rest, some acc =>
      if isWordChar c then findVarsAux rest (some (c :: acc))
      else if c = '\x7d' ∧ acc ≠ [] then String.mk acc.reverse :: findVarsAux rest none
      else if c = '\x7b' then findVarsAux rest (some [])
      else findVarsAux rest none

/-- The variable names the regex extracts from a template. -/
def findVarsList (template : String) : List String :=
  findVarsAux template.data none

/- ===================== the prompt registry ===================== -/

/-- One entry of `PromptManager.PROMPTS`: template body and description. -/
structure PromptRecord where
  template : String
  description : String
  deriving DecidableEq

/-- The shared in-memory registry, keyed by name, in insertion order
(a Python dict). -/
abbrev Registry := List (String × PromptRecord)

/-- The distinguishable `ValueError`s of `app/prompts.py`, by the message the
code builds.  Message strings themselves are abstracted into constructors;
`missingVariable` carries the raw `KeyError` key (the code additionally
applies `str(e).strip` of single quotes when printing it). -/
inductive RegError where
  | unknownPrompt
  | missingVariable (name : String)
  | missingVariables (names : List String)
  | formatError
  | alreadyExists
  | notExists
  | protectedBuiltin
  deriving DecidableEq

def regLookup (reg : Registry) (name : String) : Option PromptRecord :=
  match reg with
  | [] => none
  | (k, r) :: rest => if k = name then some r else regLookup rest name

def regContains (reg : Registry) (name : String) : Bool :=
  (regLookup reg name).isSome

/-- The built-in template set of `PromptManager.remove_prompt`
(the four `PromptName` members, which compare equal to their strings). -/
def builtinNames : List String :=
  ["company_analysis", "text_summary", "code_review", "general_question"]

/-- Body of `PROMPTS[PromptName.COMPANY_ANALYSIS]["template"]`. -/
def companyAnalysisTemplate : String :=
  "\nAnalyze the following company and provide insights:\n\nCompany: \x7bcompany_name\x7d\nIndustry: \x7bindustry\x7d\nAdditional Context: \x7badditional_context if additional_context else \x27None provided\x27\x7d\n\nPlease provide:\n1. Market position analysis\n2. Key strengths and weaknesses\n3. Competitive landscape overview\n4. Growth opportunities\n5. Risk factors\n"

/-- Body of `PROMPTS[PromptName.TEXT_SUMMARY]["template"]`. -/
def textSummaryTemplate : String :=
  "\nPlease provide a comprehensive summary of the following text:\n\nText: \x7btext\x7d\n\nRequirements:\n- Maintain key information and context\n- Highlight main points and conclusions\n- Keep the summary concise but informative\n- Preserve the original tone and style where appropriate\n"

/-- Body of `PROMPTS[PromptName.CODE_REVIEW]["template"]`. -/
def codeReviewTemplate : String :=
  "\nPlease review the following code and provide feedback:\n\nCode:\n\x7bcode\x7d\n\nLanguage: \x7blanguage if language else \x27Not specified\x27\x7d\n\nPlease provide:\n1. Code quality assessment\n2. Potential bugs or issues\n3. Security concerns\n4. Performance improvements\n5. Best practices recommendations\n6. Overall rating (1-10)\n"

/-- Body of `PROMPTS[PromptName.GENERAL_QUESTION]["template"]`. -/
def generalQuestionTemplate : String :=
  "\nPlease answer the following question:\n\nQuestion: \x7bquestion\x7d\n\nAdditional Context: \x7bcontext if context else \x27None provided\x27\x7d\n\nPlease provide a comprehensive and accurate answer based on the information provided.\n"

/-- The seeded `PromptManager.PROMPTS` dict, in source order. -/
def initialPrompts : Registry :=
  [ ("company_analysis",
      ⟨companyAnalysisTemplate,
       "Analyze a company\x27s market position, strengths, and opportunities"⟩),
    ("text_summary",
      ⟨textSummaryTemplate, "Provide comprehensive summaries of text content"⟩),
    ("code_review",
      ⟨codeReviewTemplate, "Review code for quality, security, and best practices"⟩),
    ("general_question",
      ⟨generalQuestionTemplate, "Answer general questions with comprehensive responses"⟩) ]

/-- `PromptManager.get_prompt`: look the template up and run
`template.format(**data)`, mapping `KeyError e` to the
missing-required-variable `ValueError` and any other exception to the
generic formatting `ValueError`. -/
def get_prompt (reg : Registry) (prompt_name : String) (data : VarMap) :
    Except RegError String :=
  match regLookup reg prompt_name with
  | none => .error .unknownPrompt
  | some r =>
      match pyFormat r.template data with
      | .ok s => .ok s
      | .error (.keyError v) => .error (.missingVariable v)
      | .error _ => .error .formatError

/-- `PromptManager.validate_prompt_data`: extract the regex variable set of
the template, subtract the supplied keys, and fail naming the missing
variables when any remain.  (The Python set difference is modelled as a
deduplicated ordered filter.) -/
def validate_prompt_data (reg : Registry) (prompt_name : String) (data : VarMap) :
    Except RegError Bool :=
  match regLookup reg prompt_name with
  | none => .error .unknownPrompt
  | some r =>
      let missing :=
        ((findVarsList r.template).dedup).filter (fun v => (lookupVar data v).isNone)
      if missing = [] then .ok true else .error (.missingVariables missing)

/-- `PromptManager.add_prompt`: refuse existing names, else insert at the end
of the dict; a `None` description defaults to a custom-template blurb.
(The no-placeholder case only logs a warning.) -/
def add_prompt (reg : Registry) (prompt_name template : String)
    (description : Option String) : Except RegError Registry :=
  if regContains reg prompt_name then .error .alreadyExists
  else .ok (reg ++ [(prompt_name,
    ⟨template, description.getD ("Custom prompt template: " ++ prompt_name)⟩)])

/-- `PromptManager.update_prompt`: refuse absent names, else replace the
entry in place; a `None` new description keeps the old one. -/
def update_prompt (reg : Registry) (prompt_name template : String)
    (description : Option String) : Except RegError Registry :=
  if regContains reg prompt_name = false then .error .notExists
  else .ok (reg.map (fun p =>
    if p.1 = prompt_name then (p.1, ⟨template, description.getD p.2.description⟩) else p))

/-- `PromptManager.remove_prompt`: refuse absent names, refuse the built-in
set, else pop the entry. -/
def remove_prompt (reg : Registry) (prompt_name : String) :
    Except RegError Registry :=
  if regContains reg prompt_name = false then .error .notExists
  else if prompt_name ∈ builtinNames then .error .protectedBuiltin
  else .ok (reg.filter (fun p => prompt_name ≠ p.1))

/-- A runtime mutation of the shared registry. -/
inductive RegOp where
  | add (name template : String) (description : Option String)
  | update (name template : String) (description : Option String)
  | remove (name : String)

/-- Effect of one operation on the shared registry: a raised `ValueError`
leaves the dict untouched (all mutations in the source happen after the
checks that can raise). -/
def applyOp (reg : Registry) (op : RegOp) : Registry :=
  match op with
  | .add n t d => match add_prompt reg n t d with | .ok r => r | .error _ => reg
  | .update n t d => match update_prompt reg n t d with | .ok r => r | .error _ => reg
  | .remove n => match remove_prompt reg n with | .ok r => r | .error _ => reg

/-- The registry after a sequence of runtime operations, starting from the
seeded built-ins. -/
def runOps (ops : List RegOp) : Registry :=
  ops.foldl applyOp initialPrompts

/- ===================== services / api ===================== -/

/-- The `PromptError` variants `LLMService` raises during prompt resolution:
wrapping a registry `ValueError`, the no-prompt-available guard, and the two
direct-text formatting failures. -/
inductive SvcError where
  | promptError (e : RegError)
  | noPromptAvailable
  | directMissingVariable (name : String)
  | directFormatError
  deriving DecidableEq

/-- Python truthiness of an optional string (`None` and the empty string are
falsy). -/
def pyTruthyStr : Option String → Bool
  | none => false
  | some s => decide (s ≠ "")

/-- `LLMService._format_direct_prompt`: an empty (or `None`) mapping returns
the text unchanged without touching `str.format`; otherwise
`prompt_text.format(**data)` with `KeyError e` mapped to the
missing-required-variable `PromptError` and any other exception (including
`format` on a `None` text) to the generic formatting `PromptError`. -/
def format_direct_prompt (prompt_text : Option String) (data : VarMap) :
    Except SvcError (Option String) :=
  if data = [] then .ok prompt_text
  else
    match prompt_text with
    | none => .error .directFormatError
    | some t =>
        match pyFormat t data with
        | .ok s => .ok (some s)
        | .error (.keyError v) => .error (.directMissingVariable v)
        | .error _ => .error .directFormatError

/-- `LLMService._get_stored_prompt`: validate first, then format; both raise
`PromptError` wrapping the registry `ValueError`. -/
def get_stored_prompt (reg : Registry) (prompt_name : String) (data : VarMap) :
    Except SvcError String :=
  match validate_prompt_data reg prompt_name data with
  | .error e => .error (.promptError e)
  | .ok _ =>
      match get_prompt reg prompt_name data with
      | .error e => .error (.promptError e)
      | .ok s => .ok s

/-- The `/ask-llm` request body (`app/models.py`).  `prompt_name` is the
optional `PromptName` enum member, modelled by its string value (enum members
are truthy, so presence is `isSome`); `data` defaults to the empty dict. -/
structure LLMRequest where
  prompt_name : Option String
  prompt_text : Option String
  data : VarMap
  model : Option String
  deriving DecidableEq

/-- The prompt-resolution prefix of `LLMService.process_request`: a truthy
`prompt_name` selects the stored-template path, otherwise the direct-text
path runs, and a falsy resolved prompt raises the no-prompt-available
`PromptError`.  (The downstream OpenRouter call consumes the returned
prompt and is modelled separately by the retry executor.) -/
def process_request (reg : Registry) (req : LLMRequest) : Except SvcError String :=
  match req.prompt_name with
  | some pn =>
      match get_stored_prompt reg pn req.data with
      | .error e => .error e
      | .ok prompt => if prompt = "" then .error .noPromptAvailable else .ok prompt
  | none =>
      match format_direct_prompt req.prompt_text req.data with
      | .error e => .error e
      | .ok p =>
          match p with
          | none => .error .noPromptAvailable
          | some prompt => if prompt = "" then .error .noPromptAvailable else .ok prompt

/-- Errors of the `/ask-llm` handler before and during prompt resolution. -/
inductive ApiError where
  | validationError
  | serviceError (e : SvcError)
  deriving DecidableEq

/-- The `ask_llm` handler of `app/api.py`: reject when neither `prompt_name`
nor `prompt_text` is truthy (the either-must-be-provided `ValidationError`),
otherwise hand the request to the service. -/
def ask_llm (reg : Registry) (req : LLMRequest) : Except ApiError String :=
  if req.prompt_name = none ∧ pyTruthyStr req.prompt_text = false then
    .error .validationError
  else
    (process_request reg req).mapError .serviceError

/- ===================== auth (app/auth.py) ===================== -/

/-- `AuthenticationError`, carrying its message. -/
structure AuthError where
  message : String
  deriving DecidableEq

/-- A JWT produced by `jose.jwt.encode`, modelled as its claim set plus the
signing key (signature validity is modelled as key equality).  Time is in
whole seconds (`exp` is an integer timestamp on the wire). -/
structure JWTToken where
  user_id : Option String
  exp : Option Int
  key : String
  deriving DecidableEq

/-- The decoded claim set. -/
structure JWTPayload where
  user_id : Option String
  exp : Option Int
  deriving DecidableEq

/-- `JWTTokenManager.create_access_token`: claims are the user id and
`now + expires_delta` (the delta defaults to
`ACCESS_TOKEN_EXPIRE_MINUTES` at the call site), signed with
`settings.SECRET_KEY`.  Encoding with a string key cannot fail, so the
failure branch of the `try` is dead and not modelled. -/
def create_access_token (secretKey : String) (now : Int) (user_id : String)
    (expires_delta : Int) : JWTToken :=
  { user_id := some user_id, exp := some (now + expires_delta), key := secretKey }

/-- `jose.jwt.decode` with default options: a wrong signature is a
`JWTError`; an `exp` claim strictly below the current integer timestamp is
an `ExpiredSignatureError` (also a `JWTError`); otherwise the claim set is
returned. -/
def jose_decode (secretKey : String) (now : Int) (t : JWTToken) :
    Except Unit JWTPayload :=
  if t.key ≠ secretKey then .error ()
  else
    match t.exp with
    | some e => if e < now then .error () else .ok ⟨t.user_id, t.exp⟩
    | none => .ok ⟨t.user_id, t.exp⟩

/-- A Python `datetime`: a timestamp plus the aware/naive flag. -/
structure PyDatetime where
  ts : Int
  aware : Bool
  deriving DecidableEq

/-- `datetime.now(timezone.utc)`: timezone-aware. -/
def datetime_now_utc (now : Int) : PyDatetime := ⟨now, true⟩

/-- `datetime.fromtimestamp(e)` with no tz argument: a naive datetime in
local time (`tzOffset` is the local UTC offset). -/
def datetime_fromtimestamp (tzOffset e : Int) : PyDatetime := ⟨e + tzOffset, false⟩

/-- Ordering comparison of two `datetime`s: Python raises `TypeError` when
one is aware and the other naive. -/
def datetimeGt (a b : PyDatetime) : Except Unit Bool :=
  if a.aware = b.aware then .ok (decide (b.ts < a.ts)) else .error ()

/-- `JWTTokenManager.verify_token`.  A `JWTError` from decoding becomes
`AuthenticationError "Invalid token"`.  Any other exception inside the `try`
— the missing-user-id `AuthenticationError`, the token-has-expired
`AuthenticationError`, and in particular the `TypeError` from comparing the
aware `datetime.now(timezone.utc)` against the naive
`datetime.fromtimestamp(exp)` — is caught by the final handler and re-raised
as `AuthenticationError "Token verification failed"`. -/
def verify_token (secretKey : String) (now tzOffset : Int) (t : JWTToken) :
    Except AuthError JWTPayload :=
  match jose_decode secretKey now t with
  | .error _ => .error ⟨"Invalid token"⟩
  | .ok payload =>
      match payload.user_id with
      | none => .error ⟨"Token verification failed"⟩
      | some _ =>
          match payload.exp with
          | none => .error ⟨"Token verification failed"⟩
          | some e =>
              match datetimeGt (datetime_now_utc now) (datetime_fromtimestamp tzOffset e) with
              | .error _ => .error ⟨"Token verification failed"⟩
              | .ok true => .error ⟨"Token verification failed"⟩
              | .ok false => .ok payload

/-- The authentication managers `get_auth_manager` can return: the two
built-ins, or a dynamically imported custom class. -/
inductive AuthManagerKind where
  | defaultManager
  | jwtManager
  | customManager (name : String)
  deriving DecidableEq

/-- `get_auth_manager`: the two built-in names map to their managers; any
other configured value is looked up by dynamic import, modelled by the
`importCustom` oracle, and an import failure of any kind falls back to
`DefaultAuthManager` (with a logged warning). -/
def get_auth_manager (importCustom : String → Option AuthManagerKind)
    (auth_manager_class : String) : AuthManagerKind :=
  if auth_manager_class = "JWTTokenManager" then .jwtManager
  else if auth_manager_class = "DefaultAuthManager" then .defaultManager
  else
    match importCustom auth_manager_class with
    | some k => k
    | none => .defaultManager

namespace DefaultAuthManager

/-- `DefaultAuthManager.authenticate_user`: always rejects. -/
def authenticate_user (_username _password : String) :
    Option (List (String × String)) :=
  none

end DefaultAuthManager

namespace BaseAuthManager

/-- `BaseAuthManager.create_access_token`, inherited unchanged by
`DefaultAuthManager`: always raises `AuthenticationError`. -/
def create_access_token (_user_id : String) (_expires_delta : Option Int) :
    Except AuthError String :=
  .error ⟨"Token creation not supported by this authentication manager"⟩

end BaseAuthManager

/- ===================== retry executor (app/openrouter_client.py) ===================== -/

/-- One provider attempt as the executor observes it: an HTTP response with
status, parsed integer Retry-After hint when present, and body text; or a
transport fault (`httpx.TimeoutException` / `httpx.RequestError`). -/
inductive AttemptOutcome where
  | response (status : Nat) (retryAfter : Option Nat) (body : String)
  | timeout (msg : String)
  | connectionError (msg : String)

/-- The exceptions `_make_request_with_retry` can raise.
`openRouterError` carries the body/message text and the status code it is
constructed with (408 for wrapped timeouts, 500 for wrapped transport
errors, the upstream status for HTTP errors). -/
inductive ExecError where
  | openRouterError (msg : String) (status : Nat)
  | retryExhausted (msg : String)
  deriving DecidableEq

/-- The observable outcome of one executor invocation: the returned response
(status, body) or raised exception, the backoff delays slept in order, and
the number of requests issued. -/
structure ExecTrace where
  result : Except ExecError (Nat × String)
  delays : List Nat
  requests : Nat

/-- The `for attempt in range(max_retries + 1)` loop of
`_make_request_with_retry`.  `fuel` is the number of loop iterations left
(`max_retries + 1 - attempt`); running out of fuel is falling off the loop,
which raises the recorded last exception (the all-retry-attempts-failed
default is unreachable but kept).  A 429 below the retry cap sleeps
`retry_after * 2 ^ attempt` (hint defaulting to the base delay) and
continues; a 429 at the cap raises `RetryExhaustedError`; any other status
of 400 or above raises `OpenRouterError` with that status immediately (the
re-raise handler passes it through); a transport fault records the wrapped
last exception and, below the cap, sleeps `base * 2 ^ attempt`. -/
def retryLoop (maxRetries retryDelayBase : Nat) (provider : Nat → AttemptOutcome) :
    Nat → Nat → Option ExecError → List Nat → ExecTrace
  | 0, attempt, lastExc, delays =>
      ⟨.error (lastExc.getD (.openRouterError "All retry attempts failed" 500)),
       delays.reverse, attempt⟩
  | fuel + 1, attempt, lastExc, delays =>
      match provider attempt with
      | .response status retryAfter body =>
          if status = 429 then
            if attempt < maxRetries then
              retryLoop maxRetries retryDelayBase provider fuel (attempt + 1) lastExc
                ((retryAfter.getD retryDelayBase) * 2 ^ attempt :: delays)
            else
              ⟨.error (.retryExhausted "Rate limit retries exhausted"),
               delays.reverse, attempt + 1⟩
          else if 400 ≤ status then
            ⟨.error (.openRouterError body status), delays.reverse, attempt + 1⟩
          else
            ⟨.ok (status, body), delays.reverse, attempt + 1⟩
      | .timeout m =>
          if attempt < maxRetries then
            retryLoop maxRetries retryDelayBase provider fuel (attempt + 1)
              (some (.openRouterError ("Request timeout: " ++ m) 408))
              (retryDelayBase * 2 ^ attempt :: delays)
          else
            retryLoop maxRetries retryDelayBase provider fuel (attempt + 1)
              (some (.openRouterError ("Request timeout: " ++ m) 408)) delays
      | .connectionError m =>
          if attempt < maxRetries then
            retryLoop maxRetries retryDelayBase provider fuel (attempt + 1)
              (some (.openRouterError ("Request error: " ++ m) 500))
              (retryDelayBase * 2 ^ attempt :: delays)
          else
            retryLoop maxRetries retryDelayBase provider fuel (attempt + 1)
              (some (.openRouterError ("Request error: " ++ m) 500)) delays

/-- `OpenRouterClient._make_request_with_retry` over an attempt script. -/
def make_request_with_retry (maxRetries retryDelayBase : Nat)
    (provider : Nat → AttemptOutcome) : ExecTrace :=
  retryLoop maxRetries retryDelayBase provider (maxRetries + 1) 0 none []

/-- Observable outcome of `chat_completion`: result, number of HTTP requests
issued, and the model placed in the payload (when one was resolved). -/
structure ChatTrace where
  result : Except ExecError (Nat × String)
  requests : Nat
  modelUsed : Option String

/-- `OpenRouterClient.chat_completion`: `if not model:` is Python
truthiness, so a missing model and the falsy empty string alike fall back
to `OPENROUTER_MODELS[0]` (on an empty configured list that subscript
raises a bare `IndexError` before any request; represented here as an error
with zero requests).  A resolved model outside the configured list raises
`OpenRouterError` (default status 500, message naming the model; the
configured-list suffix of the Python message is omitted) with zero requests
issued.  Otherwise the retry executor performs the call; response-body JSON
parsing and `OpenRouterResponse` validation are abstracted (the body is
returned as-is). -/
def chat_completion (models : List String) (maxRetries retryDelayBase : Nat)
    (provider : Nat → AttemptOutcome) (reqModel : Option String) : ChatTrace :=
  match (if pyTruthyStr reqModel then reqModel else models.head?) with
  | none =>
      -- `settings.OPENROUTER_MODELS[0]` on an empty list: an uncaught
      -- `IndexError` before any request is issued.
      ⟨.error (.openRouterError "IndexError: list index out of range" 500), 0, none⟩
  | some m =>
      if m ∈ models then
        let t := make_request_with_retry maxRetries retryDelayBase provider
        ⟨t.result, t.requests, some m⟩
      else
        ⟨.error (.openRouterError ("Model " ++ m ++ " not in configured models") 500),
         0, some m⟩

/- ===================== helper lemmas ===================== -/

/-- Success test for `Except`. -/
def isOkE {ε α : Type} : Except ε α → Bool
  | .ok _ => true
  | .error _ => false

@[simp] lemma isOkE_ok {ε α : Type} (a : α) : isOkE (Except.ok a : Except ε α) = true := rfl

@[simp] lemma isOkE_error {ε α : Type} (e : ε) : isOkE (Except.error e : Except ε α) = false := rfl

@[simp] lemma isOkE_map {ε α β : Type} (f : α → β) (e : Except ε α) :
    isOkE (e.map f) = isOkE e := by
  cases e <;> rfl

@[simp] lemma except_map_error {ε α β : Type} (f : α → β) (e : ε) :
    (Except.error e : Except ε α).map f = .error e := rfl

lemma string_mk_data (l : List Char) : (String.mk l).data = l := rfl

/-- When every replacement field of a brace-well-formed text is nonempty,
not all digits, and present in the mapping, formatting succeeds. -/
lemma goFmt_isOk_of_covered (data : VarMap) :
    ∀ l : List Char, ∀ m : FmtMode, ∀ fs : List String,
      collectAux l m = some fs →
      (∀ f ∈ fs, f.data ≠ [] ∧ f.data.all Char.isDigit = false ∧
        (lookupVar data f).isSome = true) →
      isOkE (goFmt data l m) = true := by
  intro l
  induction l with
  | nil =>
    intro m fs hc _
    cases m with
    | lit => simp [goFmt]
    | lbrace => simp [collectAux] at hc
    | rbrace => simp [collectAux] at hc
    | field acc => simp [collectAux] at hc
  | cons c rest ih =>
    intro m fs hc hcov
    cases m with
    | lit =>
      by_cases h1 : c = '\x7b'
      · simp only [collectAux, goFmt, if_pos h1] at hc ⊢
        exact ih _ _ hc hcov
      · by_cases h2 : c = '\x7d'
        · simp only [collectAux, goFmt, if_neg h1, if_pos h2] at hc ⊢
          exact ih _ _ hc hcov
        · simp only [collectAux, goFmt, if_neg h1, if_neg h2] at hc ⊢
          rw [isOkE_map]
          exact ih _ _ hc hcov
    | lbrace =>
      by_cases h1 : c = '\x7b'
      · simp only [collectAux, goFmt, if_pos h1] at hc ⊢
        rw [isOkE_map]
        exact ih _ _ hc hcov
      · by_cases h2 : c = '\x7d'
        · simp only [collectAux, if_neg h1, if_pos h2] at hc
          rcases Option.map_eq_some'.1 hc with ⟨fs', _, hcons⟩
          have h0 := hcov "" (by rw [← hcons]; exact List.mem_cons_self _ _)
          exact absurd rfl h0.1
        · simp only [collectAux, goFmt, if_neg h1, if_neg h2] at hc ⊢
          exact ih _ _ hc hcov
    | rbrace =>
      by_cases h2 : c = '\x7d'
      · simp only [collectAux, goFmt, if_pos h2] at hc ⊢
        rw [isOkE_map]
        exact ih _ _ hc hcov
      · simp only [collectAux, if_neg h2] at hc
        exact Option.noConfusion hc
    | field acc =>
      by_cases h2 : c = '\x7d'
      · simp only [collectAux, goFmt, if_pos h2] at hc ⊢
        rcases Option.map_eq_some'.1 hc with ⟨fs', hfs', hcons⟩
        have hn := hcov (String.mk acc.reverse)
          (by rw [← hcons]; exact List.mem_cons_self _ _)
        rw [string_mk_data] at hn
        rw [if_neg (by simp [hn.2.1])]
        obtain ⟨w, hw⟩ := Option.isSome_iff_exists.1 hn.2.2
        simp only [hw, isOkE_map]
        exact ih _ _ hfs' (fun f hf => hcov f (by rw [← hcons]; exact List.mem_cons_of_mem _ hf))
      · by_cases h1 : c = '\x7b'
        · simp only [collectAux, if_neg h2, if_pos h1] at hc
          exact Option.noConfusion hc
        · simp only [collectAux, goFmt, if_neg h2, if_neg h1] at hc ⊢
          exact ih _ _ hc hcov

/-- When some looked-up field name is absent from the mapping, formatting
cannot succeed. -/
lemma goFmt_err_of_missing (data : VarMap) :
    ∀ l : List Char, ∀ m : FmtMode, ∀ v : String,
      v ∈ refsAux l m → lookupVar data v = none →
      isOkE (goFmt data l m) = false := by
  intro l
  induction l with
  | nil =>
    intro m v hv _
    cases m <;> simp [refsAux] at hv
  | cons c rest ih =>
    intro m v hv hnone
    cases m with
    | lit =>
      by_cases h1 : c = '\x7b'
      · simp only [refsAux, goFmt, if_pos h1] at hv ⊢
        exact ih _ _ hv hnone
      · by_cases h2 : c = '\x7d'
        · simp only [refsAux, goFmt, if_neg h1, if_pos h2] at hv ⊢
          exact ih _ _ hv hnone
        · simp only [refsAux, goFmt, if_neg h1, if_neg h2] at hv ⊢
          rw [isOkE_map]
          exact ih _ _ hv hnone
    | lbrace =>
      by_cases h1 : c = '\x7b'
      · simp only [refsAux, goFmt, if_pos h1] at hv ⊢
        rw [isOkE_map]
        exact ih _ _ hv hnone
      · by_cases h2 : c = '\x7d'
        · simp only [refsAux, if_neg h1, if_pos h2] at hv
          exact absurd hv (List.not_mem_nil v)
        · simp only [refsAux, goFmt, if_neg h1, if_neg h2] at hv ⊢
          exact ih _ _ hv hnone
    | rbrace =>
      by_cases h2 : c = '\x7d'
      · simp only [refsAux, goFmt, if_pos h2] at hv ⊢
        rw [isOkE_map]
        exact ih _ _ hv hnone
      · simp only [refsAux, if_neg h2] at hv
        exact absurd hv (List.not_mem_nil v)
    | field acc =>
      by_cases h2 : c = '\x7d'
      · simp only [refsAux, goFmt, if_pos h2] at hv ⊢
        by_cases hd : (acc.reverse).all Char.isDigit
        · rw [if_pos hd]; rfl
        · rw [if_neg hd]
          rcases List.mem_cons.1 hv with hveq | hvmem
          · rw [← hveq, hnone]; rfl
          · cases hlk : lookupVar data (String.mk acc.reverse) with
            | none => rfl
            | some w =>
              rw [isOkE_map]
              exact ih _ _ hvmem hnone
      · by_cases h1 : c = '\x7b'
        · simp only [refsAux, if_neg h2, if_pos h1] at hv
          exact absurd hv (List.not_mem_nil v)
        · simp only [refsAux, goFmt, if_neg h2, if_neg h1] at hv ⊢
          exact ih _ _ hv hnone

/-- On a brace-well-formed text all of whose fields are simple names, the
first field absent from the mapping is exactly the `KeyError` raised. -/
lemma goFmt_keyError_of_first_missing (data : VarMap) :
    ∀ l : List Char, ∀ m : FmtMode, ∀ fs : List String, ∀ v : String,
      collectAux l m = some fs →
      (∀ f ∈ fs, isSimpleName f = true) →
      fs.find? (fun f => (lookupVar data f).isNone) = some v →
      goFmt data l m = .error (.keyError v) := by
  intro l
  induction l with
  | nil =>
    intro m fs v hc hs hf
    cases m with
    | lit =>
      simp only [collectAux, Option.some.injEq] at hc
      rw [← hc] at hf
      simp [List.find?] at hf
    | lbrace => simp [collectAux] at hc
    | rbrace => simp [collectAux] at hc
    | field acc => simp [collectAux] at hc
  | cons c rest ih =>
    intro m fs v hc hs hf
    cases m with
    | lit =>
      by_cases h1 : c = '\x7b'
      · simp only [collectAux, goFmt, if_pos h1] at hc ⊢
        exact ih _ _ _ hc hs hf
      · by_cases h2 : c = '\x7d'
        · simp only [collectAux, goFmt, if_neg h1, if_pos h2] at hc ⊢
          exact ih _ _ _ hc hs hf
        · simp only [collectAux, goFmt, if_neg h1, if_neg h2] at hc ⊢
          rw [ih _ _ _ hc hs hf]
          rfl
    | lbrace =>
      by_cases h1 : c = '\x7b'
      · simp only [collectAux, goFmt, if_pos h1] at hc ⊢
        rw [ih _ _ _ hc hs hf]
        rfl
      · by_cases h2 : c = '\x7d'
        · simp only [collectAux, if_neg h1, if_pos h2] at hc
          rcases Option.map_eq_some'.1 hc with ⟨fs', _, hcons⟩
          have h0 := hs "" (by rw [← hcons]; exact List.mem_cons_self _ _)
          simp [isSimpleName] at h0
        · simp only [collectAux, goFmt, if_neg h1, if_neg h2] at hc ⊢
          exact ih _ _ _ hc hs hf
    | rbrace =>
      by_cases h2 : c = '\x7d'
      · simp only [collectAux, goFmt, if_pos h2] at hc ⊢
        rw [ih _ _ _ hc hs hf]
        rfl
      · simp only [collectAux, if_neg h2] at hc
        exact Option.noConfusion hc
    | field acc =>
      by_cases h2 : c = '\x7d'
      · simp only [collectAux, goFmt, if_pos h2] at hc ⊢
        rcases Option.map_eq_some'.1 hc with ⟨fs', hfs', hcons⟩
        have hsimple := hs (String.mk acc.reverse)
          (by rw [← hcons]; exact List.mem_cons_self _ _)
        simp only [isSimpleName, Bool.and_eq_true, Bool.not_eq_true',
          decide_eq_true_eq, string_mk_data] at hsimple
        rw [if_neg (by simp [hsimple.2])]
        rw [← hcons] at hf
        cases hlk : lookupVar data (String.mk acc.reverse) with
        | none =>
          rw [List.find?_cons_of_pos _ (by simp [hlk])] at hf
          have hveq : String.mk acc.reverse = v := by simpa using hf
          simp only [hlk, hveq]
        | some w =>
          rw [List.find?_cons_of_neg _ (by simp [hlk])] at hf
          simp only [hlk]
          rw [ih _ _ _ hfs'
            (fun f hf' => hs f (by rw [← hcons]; exact List.mem_cons_of_mem _ hf')) hf]
          rfl
      · by_cases h1 : c = '\x7b'
        · simp only [collectAux, if_neg h2, if_pos h1] at hc
          exact Option.noConfusion hc
        · simp only [collectAux, goFmt, if_neg h2, if_neg h1] at hc ⊢
          exact ih _ _ _ hc hs hf

lemma regContains_append_left {reg : Registry} {b : String}
    (h : regContains reg b = true) (l : Registry) :
    regContains (reg ++ l) b = true := by
  induction reg with
  | nil => simp [regContains, regLookup] at h
  | cons p rest ih =>
    obtain ⟨k, r⟩ := p
    simp only [regContains, regLookup, List.cons_append] at h ⊢
    by_cases hk : k = b
    · simp [hk]
    · simp only [if_neg hk] at h ⊢
      exact ih h

lemma regContains_map_fst (g : String × PromptRecord → String × PromptRecord)
    (hg : ∀ p, (g p).1 = p.1) (reg : Registry) (b : String) :
    regContains (reg.map g) b = regContains reg b := by
  induction reg with
  | nil => rfl
  | cons p rest ih =>
    simp only [List.map_cons, regContains, regLookup]
    rw [hg p]
    by_cases hb : p.1 = b
    · simp [hb]
    · simp only [if_neg hb]
      exact ih

lemma regContains_update_map (name template : String) (d : Option String)
    (reg : Registry) (b : String) :
    regContains (reg.map (fun p =>
      if p.1 = name then (p.1, ⟨template, d.getD p.2.description⟩) else p)) b =
    regContains reg b :=
  regContains_map_fst _ (fun p => by by_cases hp : p.1 = name <;> simp [hp]) reg b

lemma regContains_filter_ne {reg : Registry} {b : String} (n : String)
    (hnb : n ≠ b) (h : regContains reg b = true) :
    regContains (reg.filter (fun p => n ≠ p.1)) b = true := by
  induction reg with
  | nil => simp [regContains, regLookup] at h
  | cons p rest ih =>
    obtain ⟨k, r⟩ := p
    simp only [regContains, regLookup] at h
    by_cases hk : k = b
    · have hpred : (n ≠ k) := by rw [hk]; exact hnb
      simp only [List.filter_cons, decide_eq_true hpred]
      simp [regContains, regLookup, hk]
    · simp only [if_neg hk] at h
      by_cases hpred : n ≠ k
      · simp only [List.filter_cons, decide_eq_true hpred]
        simp only [regContains, regLookup, if_neg hk]
        exact ih h
      · simp only [List.filter_cons, decide_eq_false hpred]
        exact ih h

lemma applyOp_preserves_builtin (reg : Registry) (op : RegOp) (b : String)
    (hb : b ∈ builtinNames) (h : regContains reg b = true) :
    regContains (applyOp reg op) b = true := by
  cases op with
  | add n t d =>
    simp only [applyOp, add_prompt]
    cases hn : regContains reg n with
    | true => simpa using h
    | false => simpa using regContains_append_left h _
  | update n t d =>
    simp only [applyOp, update_prompt]
    cases hn : regContains reg n with
    | false => simpa using h
    | true => simpa [regContains_update_map] using h
  | remove n =>
    simp only [applyOp, remove_prompt]
    cases hn : regContains reg n with
    | false => simpa using h
    | true =>
      by_cases hbn : n ∈ builtinNames
      · simpa [hbn] using h
      · have hne : n ≠ b := fun he => hbn (he ▸ hb)
        simpa [hbn] using regContains_filter_ne n hne h

lemma runOps_contains_builtin (ops : List RegOp) (b : String)
    (hb : b ∈ builtinNames) : regContains (runOps ops) b = true := by
  suffices hgen : ∀ reg : Registry, regContains reg b = true →
      regContains (ops.foldl applyOp reg) b = true by
    refine hgen initialPrompts ?_
    fin_cases hb <;> rfl
  induction ops with
  | nil => intro reg h; exact h
  | cons op rest ih =>
    intro reg h
    exact ih (applyOp reg op) (applyOp_preserves_builtin reg op b hb h)

/-- The exponential-backoff trace of the executor when every attempt raises
a transport fault: the loop walks all `maxRetries + 1` attempts, sleeps
`base * 2 ^ i` after each non-final one, and finally raises the recorded
wrap of the last fault. -/
lemma retryLoop_all_transient (maxR B : Nat) (f : Nat → Bool) (msgs : Nat → String) :
    ∀ (fuel attempt : Nat) (lastE : Option ExecError) (acc : List Nat),
      attempt + fuel = maxR + 1 →
      retryLoop maxR B
        (fun n => if f n then .timeout (msgs n) else .connectionError (msgs n))
        fuel attempt lastE acc =
      ⟨.error (if fuel = 0 then
                 lastE.getD (.openRouterError "All retry attempts failed" 500)
               else if f maxR then
                 .openRouterError ("Request timeout: " ++ msgs maxR) 408
               else
                 .openRouterError ("Request error: " ++ msgs maxR) 500),
       acc.reverse ++ (List.range' attempt (fuel - 1)).map (fun i => B * 2 ^ i),
       maxR + 1⟩ := by
  intro fuel
  induction fuel with
  | zero =>
    intro attempt lastE acc h
    have ha : attempt = maxR + 1 := by omega
    simp [retryLoop, ha]
  | succ n ih =>
    intro attempt lastE acc h
    cases hf : f attempt with
    | true =>
      have hp : (fun k => if f k = true then AttemptOutcome.timeout (msgs k)
          else AttemptOutcome.connectionError (msgs k)) attempt =
          AttemptOutcome.timeout (msgs attempt) := by simp [hf]
      simp only [retryLoop, hp]
      cases n with
      | zero =>
        rw [if_neg (show ¬ attempt < maxR by omega)]
        rw [ih (attempt + 1) _ acc (by omega)]
        have ha : attempt = maxR := by omega
        subst ha
        simp [hf]
      | succ m =>
        rw [if_pos (show attempt < maxR by omega)]
        rw [ih (attempt + 1) _ _ (by omega)]
        simp [List.range'_succ, List.reverse_cons, List.append_assoc]
    | false =>
      have hp : (fun k => if f k = true then AttemptOutcome.timeout (msgs k)
          else AttemptOutcome.connectionError (msgs k)) attempt =
          AttemptOutcome.connectionError (msgs attempt) := by simp [hf]
      simp only [retryLoop, hp]
      cases n with
      | zero =>
        rw [if_neg (show ¬ attempt < maxR by omega)]
        rw [ih (attempt + 1) _ acc (by omega)]
        have ha : attempt = maxR := by omega
        subst ha
        simp [hf]
      | succ m =>
        rw [if_pos (show attempt < maxR by omega)]
        rw [ih (attempt + 1) _ _ (by omega)]
        simp [List.range'_succ, List.reverse_cons, List.append_assoc]

/- ===================== claims ===================== -/

/-- Claim C1 (code bug evidence).  For any signing key, subject and local
timezone offset, a token issued at time 0 with a 3600-second ttl and
verified at time 10 — strictly before expiry — is rejected with
`AuthenticationError` instead of returning the payload: the expiry check
compares the timezone-aware current time against a naive
`datetime.fromtimestamp`, whose `TypeError` the final handler converts to
the token-verification-failed `AuthenticationError`. -/
theorem c1_verify_rejects_unexpired_token (key uid : String) (tz : Int) :
    verify_token key 10 tz (create_access_token key 0 uid 3600) =
      .error ⟨"Token verification failed"⟩ := by
  simp [verify_token, create_access_token, jose_decode, datetimeGt,
    datetime_now_utc, datetime_fromtimestamp]

/-- Claim C2.  With maximum retries 3: two rate-limited responses followed
by a success return the success, sleeping the provider hint (or the base
backoff when the hint is absent) times two to the attempt index before each
retry; four consecutive rate-limited responses raise
`RetryExhaustedError` after three backoff sleeps. -/
theorem c2_rate_limit_retry_behaviour (B h0 h1 : Nat) (rlBody okBody : String) :
    make_request_with_retry 3 B
        (fun n => if n = 0 then .response 429 (some h0) rlBody
          else if n = 1 then .response 429 (some h1) rlBody
          else .response 200 none okBody) =
      ⟨.ok (200, okBody), [h0 * 2 ^ 0, h1 * 2 ^ 1], 3⟩
    ∧ make_request_with_retry 3 B
        (fun n => if n = 0 then .response 429 none rlBody
          else if n = 1 then .response 429 none rlBody
          else .response 200 none okBody) =
      ⟨.ok (200, okBody), [B * 2 ^ 0, B * 2 ^ 1], 3⟩
    ∧ make_request_with_retry 3 B (fun _ => .response 429 (some h0) rlBody) =
      ⟨.error (.retryExhausted "Rate limit retries exhausted"),
       [h0 * 2 ^ 0, h0 * 2 ^ 1, h0 * 2 ^ 2], 4⟩ := by
  refine ⟨?_, ?_, ?_⟩ <;> simp [make_request_with_retry, retryLoop]

/-- Claim C3.  A first response with any status of 400 or above other than
429 makes the executor raise `OpenRouterError` carrying that status and the
response body immediately: one request issued, no sleeps, regardless of
what later attempts would have returned. -/
theorem c3_non_retryable_immediate (maxR B st : Nat) (ra : Option Nat)
    (body : String) (q : Nat → AttemptOutcome) (h1 : 400 ≤ st) (h2 : st ≠ 429) :
    make_request_with_retry maxR B
        (fun n => if n = 0 then .response st ra body else q n) =
      ⟨.error (.openRouterError body st), [], 1⟩ := by
  simp [make_request_with_retry, retryLoop, h1, h2]

theorem c3_witness :
    400 ≤ 400 ∧ (400 : Nat) ≠ 429 ∧
    make_request_with_retry 3 1
        (fun n => if n = 0 then .response 400 none "bad request"
          else .response 200 none "ok") =
      ⟨.error (.openRouterError "bad request" 400), [], 1⟩ :=
  ⟨by decide, by decide,
   c3_non_retryable_immediate 3 1 400 none "bad request" _ (by decide) (by decide)⟩

/-- Claim C6.  After any sequence of add/update/remove operations on the
registry, removing any built-in template name fails with the
cannot-remove-built-in error, leaves the registry unchanged, and indeed the
built-in names are present in every reachable registry state. -/
theorem c6_remove_builtin_protected (ops : List RegOp) (name : String)
    (h : name ∈ builtinNames) :
    remove_prompt (runOps ops) name = .error .protectedBuiltin
    ∧ applyOp (runOps ops) (.remove name) = runOps ops
    ∧ regContains (runOps ops) name = true := by
  have hc := runOps_contains_builtin ops name h
  refine ⟨?_, ?_, hc⟩
  · simp [remove_prompt, hc, h]
  · simp [applyOp, remove_prompt, hc, h]

theorem c6_witness :
    "company_analysis" ∈ builtinNames ∧
    remove_prompt (runOps [.add "my_prompt" "Say \x7bthing\x7d" none, .remove "my_prompt"])
        "company_analysis" = .error .protectedBuiltin :=
  ⟨by decide, (c6_remove_builtin_protected _ "company_analysis" (by decide)).1⟩

/-- Claim C4 (amended).  Resolving literal text with an empty (or missing)
variable mapping returns the text unchanged, placeholders or not; with a
nonempty mapping, on text whose replacement fields are all simple
placeholder names — the only fields the spec calls placeholders, and the
subset on which the `goFmt` model coincides with CPython `str.format` — a
referenced placeholder absent from the mapping always makes resolution
fail, never substituting an empty string, and the failure names the first
absent placeholder.  (Fields carrying conversion/format-spec/attribute
syntax are outside the simple-name guard and outside the model.) -/
theorem c4_literal_resolution_amended (text : String) (data : VarMap)
    (v : String) (fs : List String) :
    format_direct_prompt (some text) [] = .ok (some text)
    ∧ (data ≠ [] →
        (∀ f ∈ refsAux text.data .lit, isSimpleName f = true) →
        v ∈ refsAux text.data .lit → lookupVar data v = none →
        isOkE (format_direct_prompt (some text) data) = false)
    ∧ (data ≠ [] → collectAux text.data .lit = some fs →
        (∀ f ∈ fs, isSimpleName f = true) →
        fs.find? (fun f => (lookupVar data f).isNone) = some v →
        format_direct_prompt (some text) data = .error (.directMissingVariable v)) := by
  refine ⟨rfl, ?_, ?_⟩
  · intro hd _hsimple hv hn
    have herr := goFmt_err_of_missing data text.data .lit v hv hn
    simp only [format_direct_prompt, if_neg hd, pyFormat]
    cases hg : goFmt data text.data .lit with
    | ok cs => rw [hg] at herr; simp at herr
    | error e =>
      simp only [hg, except_map_error]
      cases e <;> rfl
  · intro hd hc hs hf
    have hkey := goFmt_keyError_of_first_missing data text.data .lit fs v hc hs hf
    simp only [format_direct_prompt, if_neg hd, pyFormat, hkey, except_map_error]

/-- Claim C4 counterexample: literal text that references the placeholder
`name`, resolved with the empty mapping, is returned unchanged — no
missing-variable error, contrary to the claim. -/
theorem c4_empty_mapping_counterexample :
    format_direct_prompt (some "Hello \x7bname\x7d") [] =
      .ok (some "Hello \x7bname\x7d")
    ∧ "name" ∈ refsAux "Hello \x7bname\x7d".data .lit :=
  ⟨rfl, by decide⟩

theorem c4_witness :
    isOkE (format_direct_prompt (some "Hi \x7bname\x7d") [("other", "x")]) = false
    ∧ format_direct_prompt (some "Hi \x7bname\x7d") [("other", "x")] =
        .error (.directMissingVariable "name") :=
  ⟨(c4_literal_resolution_amended "Hi \x7bname\x7d" [("other", "x")] "name"
      ["name"]).2.1 (by decide) (by decide) (by decide) rfl,
   (c4_literal_resolution_amended "Hi \x7bname\x7d" [("other", "x")] "name"
      ["name"]).2.2 (by decide) rfl (by decide) rfl⟩

/-- Claim C5 (amended).  For any registered template — freshly added or
built-in — whose replacement fields are all simple placeholder names and
coincide with the regex-extracted placeholder list: resolving with a
mapping whose keys are exactly those placeholders passes validation and
formats successfully, while omitting any one placeholder fails validation
with the missing-variables error naming it.  (The built-ins containing
conditional-expression fields are excluded; see the counterexample.) -/
theorem c5_template_resolution_amended (reg : Registry) (nm tmpl d : String)
    (fs : List String) (data dataMinus : VarMap) (v : String)
    (hreg : regLookup reg nm = some ⟨tmpl, d⟩)
    (hc : collectAux tmpl.data .lit = some fs)
    (hv : findVarsList tmpl = fs)
    (hs : ∀ f ∈ fs, isSimpleName f = true) :
    ((∀ k, (lookupVar data k).isSome = decide (k ∈ fs)) →
       validate_prompt_data reg nm data = .ok true
       ∧ isOkE (get_prompt reg nm data) = true)
    ∧ (v ∈ fs →
       (∀ k, (lookupVar dataMinus k).isSome = (decide (k ∈ fs) && decide (k ≠ v))) →
       ∃ ms, validate_prompt_data reg nm dataMinus = .error (.missingVariables ms)
         ∧ v ∈ ms) := by
  constructor
  · intro hcov
    constructor
    · have hmiss : ((findVarsList tmpl).dedup).filter
          (fun x => (lookupVar data x).isNone) = [] := by
        rw [hv]
        refine List.filter_eq_nil_iff.2 ?_
        intro a ha
        have hmem : a ∈ fs := List.mem_dedup.1 ha
        have hsome := hcov a
        rw [decide_eq_true hmem] at hsome
        cases hx : lookupVar data a with
        | none => rw [hx] at hsome; simp at hsome
        | some w => simp [hx]
      simp [validate_prompt_data, hreg, hmiss]
    · have hok := goFmt_isOk_of_covered data tmpl.data .lit fs hc (fun f hf => by
        have hsimple := hs f hf
        simp only [isSimpleName, Bool.and_eq_true, Bool.not_eq_true',
          decide_eq_true_eq] at hsimple
        have hsome := hcov f
        rw [decide_eq_true hf] at hsome
        exact ⟨hsimple.1.1, hsimple.2, hsome⟩)
      simp only [get_prompt, hreg]
      cases hg : goFmt data tmpl.data .lit with
      | error e => rw [hg] at hok; simp at hok
      | ok cs => simp [pyFormat, hg, Except.map]
  · intro hvfs hcov
    have hvmem : v ∈ (fs.dedup).filter (fun x => (lookupVar dataMinus x).isNone) := by
      refine List.mem_filter.2 ⟨List.mem_dedup.2 hvfs, ?_⟩
      have hsome := hcov v
      simp only [decide_eq_true hvfs, Bool.true_and] at hsome
      rw [decide_eq_false (by intro hcontra; exact hcontra rfl : ¬ v ≠ v)] at hsome
      cases hx : lookupVar dataMinus v with
      | some w => rw [hx] at hsome; simp at hsome
      | none => simp [hx]
    refine ⟨(fs.dedup).filter (fun x => (lookupVar dataMinus x).isNone), ?_, hvmem⟩
    have hne : (fs.dedup).filter (fun x => (lookupVar dataMinus x).isNone) ≠ [] :=
      List.ne_nil_of_mem hvmem
    simp only [validate_prompt_data, hreg, hv]
    rw [if_neg hne]

set_option maxRecDepth 100000 in
/-- Claim C5 counterexample: the built-in company-analysis template resolved
with exactly the two placeholder names its own validator extracts passes
validation but fails formatting, because `str.format` additionally demands
the conditional-expression field as a key. -/
theorem c5_builtin_counterexample :
    findVarsList companyAnalysisTemplate = ["company_name", "industry"]
    ∧ validate_prompt_data initialPrompts "company_analysis"
        [("company_name", "Acme"), ("industry", "Tech")] = .ok true
    ∧ get_prompt initialPrompts "company_analysis"
        [("company_name", "Acme"), ("industry", "Tech")] =
      .error (.missingVariable
        "additional_context if additional_context else \x27None provided\x27") :=
  ⟨rfl, rfl, rfl⟩

theorem c5_witness :
    add_prompt [] "greet" "Hello \x7bname\x7d!" none =
      .ok [("greet", ⟨"Hello \x7bname\x7d!", "Custom prompt template: greet"⟩)]
    ∧ (validate_prompt_data
          [("greet", ⟨"Hello \x7bname\x7d!", "Custom prompt template: greet"⟩)]
          "greet" [("name", "Bob")] = .ok true
       ∧ isOkE (get_prompt
          [("greet", ⟨"Hello \x7bname\x7d!", "Custom prompt template: greet"⟩)]
          "greet" [("name", "Bob")]) = true)
    ∧ (∃ ms, validate_prompt_data
          [("greet", ⟨"Hello \x7bname\x7d!", "Custom prompt template: greet"⟩)]
          "greet" [] = .error (.missingVariables ms) ∧ "name" ∈ ms) :=
  ⟨rfl,
   (c5_template_resolution_amended
      [("greet", ⟨"Hello \x7bname\x7d!", "Custom prompt template: greet"⟩)]
      "greet" "Hello \x7bname\x7d!" "Custom prompt template: greet" ["name"]
      [("name", "Bob")] [] "name" rfl rfl rfl (by decide)).1
     (by
       intro k
       by_cases h : "name" = k
       · simp [lookupVar, h]
       · simp only [lookupVar, if_neg h, Option.isSome_none, List.mem_singleton]
         exact (decide_eq_false (fun he => h he.symm)).symm),
   (c5_template_resolution_amended
      [("greet", ⟨"Hello \x7bname\x7d!", "Custom prompt template: greet"⟩)]
      "greet" "Hello \x7bname\x7d!" "Custom prompt template: greet" ["name"]
      [("name", "Bob")] [] "name" rfl rfl rfl (by decide)).2
     (by decide)
     (by intro k; by_cases h : k = "name" <;> simp [lookupVar, h, eq_comm])⟩

/-- Claim C7 (amended).  A request providing neither a truthy template name
nor truthy literal text is rejected with the validation error before any
resolution; but a request providing both is not rejected — the template
name takes precedence and the literal text is ignored entirely. -/
theorem c7_prompt_source_amended (reg : Registry) (pn : String)
    (pt pt' : Option String) (data : VarMap) (mdl : Option String) :
    ask_llm reg ⟨none, none, data, mdl⟩ = .error .validationError
    ∧ ask_llm reg ⟨none, some "", data, mdl⟩ = .error .validationError
    ∧ ask_llm reg ⟨some pn, pt, data, mdl⟩ = ask_llm reg ⟨some pn, pt', data, mdl⟩ := by
  refine ⟨?_, ?_, ?_⟩
  · simp [ask_llm, pyTruthyStr]
  · simp [ask_llm, pyTruthyStr]
  · simp [ask_llm, pyTruthyStr, process_request]

set_option maxRecDepth 100000 in
/-- Claim C7 counterexample: a request carrying both a template name and
literal text is accepted and resolved through the stored template — the
literal text is silently ignored, where the claim demands rejection. -/
theorem c7_both_provided_counterexample :
    ask_llm initialPrompts
        ⟨some "text_summary", some "a literal prompt", [("text", "T")], none⟩ =
      .ok "\nPlease provide a comprehensive summary of the following text:\n\nText: T\n\nRequirements:\n- Maintain key information and context\n- Highlight main points and conclusions\n- Keep the summary concise but informative\n- Preserve the original tone and style where appropriate\n" :=
  rfl

/-- Claim C8.  When every attempt fails with a transport fault (timeout or
connection error, possibly mixed), the executor walks all `maxRetries + 1`
attempts, sleeps `base * 2 ^ i` after each non-final attempt `i`, and
raises the last transient fault wrapped as `OpenRouterError` (408 for a
timeout, 500 for a connection error). -/
theorem c8_transient_exhaustion (maxR B : Nat) (f : Nat → Bool) (msgs : Nat → String) :
    make_request_with_retry maxR B
        (fun n => if f n = true then .timeout (msgs n) else .connectionError (msgs n)) =
      ⟨.error (if f maxR then .openRouterError ("Request timeout: " ++ msgs maxR) 408
               else .openRouterError ("Request error: " ++ msgs maxR) 500),
       (List.range maxR).map (fun i => B * 2 ^ i),
       maxR + 1⟩ := by
  rw [make_request_with_retry,
    retryLoop_all_transient maxR B f msgs (maxR + 1) 0 none [] (by omega)]
  simp [List.range_eq_range']

/-- Claim C9.  A configured auth-backend name that is neither of the two
built-ins and fails dynamic import resolves to the default manager, whose
authentication rejects every credential pair and whose token issuance
(inherited from the base manager) always raises. -/
theorem c9_unknown_backend_fails_closed
    (importCustom : String → Option AuthManagerKind) (cls : String)
    (h1 : cls ≠ "JWTTokenManager") (h2 : cls ≠ "DefaultAuthManager")
    (h3 : importCustom cls = none) :
    get_auth_manager importCustom cls = .defaultManager
    ∧ (∀ u p, DefaultAuthManager.authenticate_user u p = none)
    ∧ (∀ uid dl, isOkE (BaseAuthManager.create_access_token uid dl) = false) := by
  refine ⟨?_, fun _ _ => rfl, fun _ _ => rfl⟩
  simp [get_auth_manager, h1, h2, h3]

theorem c9_witness :
    ("no.such.Class" : String) ≠ "JWTTokenManager"
    ∧ ("no.such.Class" : String) ≠ "DefaultAuthManager"
    ∧ get_auth_manager (fun _ => none) "no.such.Class" = .defaultManager :=
  ⟨by decide, by decide,
   (c9_unknown_backend_fails_closed (fun _ => none) "no.such.Class"
      (by decide) (by decide) rfl).1⟩

/-- Claim C10.  Requesting a truthy model identifier outside the configured
list raises `OpenRouterError` with zero HTTP requests issued; requesting no
model makes the call behave exactly as a request for the first configured
model, and requesting the Python-falsy empty string behaves exactly as
requesting no model (the `if not model:` fallback coalesces it before the
list check). -/
theorem c10_model_validation (models : List String) (m m0 : String)
    (rest : List String) (maxR B : Nat) (provider : Nat → AttemptOutcome)
    (hm : m ≠ "") (h : m ∉ models) :
    chat_completion models maxR B provider (some m) =
      ⟨.error (.openRouterError ("Model " ++ m ++ " not in configured models") 500),
       0, some m⟩
    ∧ chat_completion (m0 :: rest) maxR B provider none =
      chat_completion (m0 :: rest) maxR B provider (some m0)
    ∧ chat_completion models maxR B provider (some "") =
      chat_completion models maxR B provider none := by
  refine ⟨?_, ?_, ?_⟩
  · simp [chat_completion, pyTruthyStr, hm, h]
  · by_cases hm0 : m0 = "" <;> simp [chat_completion, pyTruthyStr, hm0]
  · simp [chat_completion, pyTruthyStr]

theorem c10_witness :
    ("missing-model" : String) ≠ ""
    ∧ ("missing-model" : String) ∉ ["model-a", "model-b"]
    ∧ chat_completion ["model-a", "model-b"] 3 1 (fun _ => .response 200 none "ok")
        (some "missing-model") =
      ⟨.error (.openRouterError
          ("Model " ++ "missing-model" ++ " not in configured models") 500),
       0, some "missing-model"⟩ :=
  ⟨by decide, by decide,
   (c10_model_validation ["model-a", "model-b"] "missing-model" "x" [] 3 1
      (fun _ => .response 200 none "ok") (by decide) (by decide)).1⟩
